import Mathlib

/-!
Verification development for a FastAPI + aiomysql shipment ("envío") CRUD service
(`main.py`). The Python code is shallowly embedded: every handler becomes a pure
function over an explicit application state (the process-wide connection pool
variable plus an in-use-connection counter), an opaque database transition
function standing for the MySQL server with its stored procedures, and an event
trace recording connection acquisition and release. Fallible Python code
(pydantic validation, KeyError/IndexError, HTTPException, database errors)
becomes `Except`.
-/

namespace EnviosApi

/-- Python `datetime.datetime` value (microseconds omitted: none of the
properties under study depend on them). -/
structure PyDatetime where
  year : Nat
  month : Nat
  day : Nat
  hour : Nat
  minute : Nat
  second : Nat
deriving DecidableEq, Repr

def pad2 (n : Nat) : String :=
  if n < 10 then "0" ++ toString n else toString n

def pad4 (n : Nat) : String :=
  if n < 10 then "000" ++ toString n
  else if n < 100 then "00" ++ toString n
  else if n < 1000 then "0" ++ toString n
  else toString n

/-- Python `datetime.isoformat()` for a datetime with zero microseconds:
`YYYY-MM-DDTHH:MM:SS`. -/
def pyIsoformat (d : PyDatetime) : String :=
  pad4 d.year ++ "-" ++ pad2 d.month ++ "-" ++ pad2 d.day ++ "T" ++
  pad2 d.hour ++ ":" ++ pad2 d.minute ++ ":" ++ pad2 d.second

/-- A SQL cell value as surfaced by the aiomysql cursor. -/
inductive Value where
  | vInt (n : Int)
  | vStr (s : String)
  | vDT (d : PyDatetime)
  | vNull
deriving DecidableEq, Repr

/-- One entry of `cursor.description`: column name plus type-ish metadata
(the code only ever reads `col[0]`, the name). -/
structure Col where
  name : String
  typeCode : Nat
deriving DecidableEq, Repr

def digitsToNat (cs : List Char) : Nat :=
  cs.foldl (fun acc c => acc * 10 + (c.toNat - 48)) 0

/-- Strip leading and trailing whitespace from a character list. -/
def pyStrip (cs : List Char) : List Char :=
  ((cs.dropWhile Char.isWhitespace).reverse.dropWhile Char.isWhitespace).reverse

/-- Python `int(s)` on a string: optional surrounding whitespace, optional
sign, then a nonempty run of decimal digits; `none` models the `ValueError`
raised otherwise. -/
def pyInt (s : String) : Option Int :=
  match pyStrip s.toList with
  | [] => none
  | c :: rest =>
    if c = '-' then
      if rest ≠ [] ∧ rest.all Char.isDigit then some (-(digitsToNat rest : Int)) else none
    else if c = '+' then
      if rest ≠ [] ∧ rest.all Char.isDigit then some (digitsToNat rest : Int) else none
    else if (c :: rest).all Char.isDigit then some (digitsToNat (c :: rest) : Int)
    else none

/-- The errors a request can surface: an explicit `HTTPException`, a pydantic
validation error, Python `KeyError` / `IndexError` / `TypeError` / `ValueError`,
or a database error propagated out of `ejecutar_consulta`. -/
inductive HErr where
  | http (status : Nat) (detail : String)
  | validation (detail : String)
  | keyError (key : String)
  | indexError
  | typeError
  | valueError
  | dbError (e : String)
deriving DecidableEq, Repr

def exceptIsOk {ε α : Type} : Except ε α → Bool
  | .ok _ => true
  | .error _ => false

def isValidationErr {α : Type} : Except HErr α → Bool
  | .error (.validation _) => true
  | _ => false

/-- The five module-level configuration values (`main.py` lines 13-17).
`DB_PORT` is an `Int` because the source wraps it in `int(...)`; the other
four are raw `os.getenv` results, hence `Option String`. -/
structure Config where
  host : Option String
  port : Int
  user : Option String
  password : Option String
  db : Option String
deriving DecidableEq, Repr

/-- Module-level configuration loading (`main.py` lines 13-17). `os.getenv`
returns `None` for a missing key without error; only `DB_PORT` passes through
`int(...)`, where `int(None)` raises `TypeError` and `int` of a non-numeric
string raises `ValueError`, aborting the import and hence process startup. -/
def loadConfig (env : String → Option String) : Except HErr Config :=
  match env "DB_PORT" with
  | none => .error HErr.typeError
  | some s =>
    match pyInt s with
    | none => .error HErr.valueError
    | some n => .ok ⟨env "DB_HOST", n, env "DB_USER", env "DB_PASSWORD", env "DB_NAME"⟩

/-- The aiomysql connection pool object, keeping the arguments it was created
with (`main.py` lines 60-67). -/
structure Pool where
  host : Option String
  port : Int
  user : Option String
  password : Option String
  db : Option String
  autocommit : Bool
deriving DecidableEq, Repr

/-- `aiomysql.create_pool(host=..., port=..., user=..., password=..., db=...,
autocommit=True)` as called in `get_pool`. -/
def create_pool (cfg : Config) : Pool :=
  ⟨cfg.host, cfg.port, cfg.user, cfg.password, cfg.db, true⟩

/-- Process-wide mutable state: the module-level `pool` variable (initially
`None`) and the number of connections currently checked out of the pool. -/
structure AppState where
  pool : Option Pool
  inUse : Nat
deriving DecidableEq, Repr

/-- `get_pool` (`main.py` lines 57-68): lazily create the global pool on first
call, return the existing one afterwards. -/
def get_pool (cfg : Config) (st : AppState) : Pool × AppState :=
  match st.pool with
  | none =>
    let p := create_pool cfg
    (p, { st with pool := some p })
  | some p => (p, st)

/-- The `startup` event hook (`main.py` lines 70-72): just awaits `get_pool`. -/
def startup (cfg : Config) (st : AppState) : AppState :=
  (get_pool cfg st).2

/-- Connection-lifecycle events observable during a request. -/
inductive Event where
  | acquire
  | exec (query : String) (params : List Value)
  | release
deriving DecidableEq, Repr

/-- The database (MySQL server with its stored procedures), as an opaque
transition function over some database-state type: given a state, a query
string and parameters, it returns either fetched rows plus `cursor.description`
or an error (a raised exception in `cursor.execute` / `fetchall`), and a
successor state. -/
def DBT (σ : Type) : Type :=
  σ → String → List Value → Except String (List (List Value) × List Col) × σ

/-- `ejecutar_consulta` (`main.py` lines 82-88): acquire the shared pool (first
call creates it), check one connection out via `async with pool_obj.acquire()`,
run the parameterized statement and fetch all rows, and — because `async with`
releases on every exit path, exceptional or not — return the connection before
propagating the result. The event list records the acquire / execute / release
sequence. -/
def ejecutar_consulta {σ : Type} (dbt : DBT σ) (cfg : Config) (st : AppState)
    (dbs : σ) (query : String) (params : List Value) :
    Except String (List (List Value) × List Col) × AppState × σ × List Event :=
  let st1 := (get_pool cfg st).2
  let stAcq : AppState := { st1 with inUse := st1.inUse + 1 }
  let r := dbt dbs query params
  let stRel : AppState := { stAcq with inUse := stAcq.inUse - 1 }
  (r.1, stRel, r.2, [Event.acquire, Event.exec query params, Event.release])

-- PYDANTIC MODELS (main.py lines 21-53)

/-- `Repartidor` (`main.py` lines 21-25). -/
structure Repartidor where
  repartidor_id : Int
  nombre : String
  apellido : String
  telefono : String
deriving DecidableEq, Repr

/-- `EstadoEnvio` (`main.py` lines 27-29). -/
structure EstadoEnvio where
  estado_id : Int
  nombre_estado : String
deriving DecidableEq, Repr

/-- `EnvioCreate` = `EnvioBase` (`main.py` lines 31-40): the already-validated
request body of POST and PUT. -/
structure EnvioCreate where
  remitente : String
  destinatario : String
  direccion_envio : String
  fecha_envio : PyDatetime
  repartidor_id : Int
  estado_id : Int
deriving DecidableEq, Repr

/-- `EnvioOut` (`main.py` lines 42-50): the joined shipment view. -/
structure EnvioOut where
  envio_id : Int
  remitente : String
  destinatario : String
  direccion_envio : String
  fecha_envio : String
  nombre_repartidor : String
  apellido_repartidor : String
  estado : String
deriving DecidableEq, Repr

/-- `Envio` (`main.py` lines 52-53): `EnvioBase` plus the id, the response of
POST and PUT. -/
structure Envio where
  envio_id : Int
  remitente : String
  destinatario : String
  direccion_envio : String
  fecha_envio : PyDatetime
  repartidor_id : Int
  estado_id : Int
deriving DecidableEq, Repr

-- ROW-TO-RECORD MAPPING

/-- `dict(zip(column_names, row))` followed by `d[k]` lookup: `zip` truncates
at the shorter list and a later duplicate key overwrites an earlier one, so the
lookup takes the last matching pair. -/
def pyDictOf (cols : List String) (row : List Value) : String → Option Value :=
  fun k => ((List.zip cols row).reverse.find? (fun p => p.1 == k)).map (fun p => p.2)

/-- Pydantic validation of an `int`-typed field: an integer passes, a numeric
string is coerced, anything else is a type error. -/
def asPyInt : Value → Option Int
  | .vInt n => some n
  | .vStr s => pyInt s
  | _ => none

/-- Pydantic validation of a `str`-typed field: only a string passes. -/
def asPyStr : Value → Option String
  | .vStr s => some s
  | _ => none

/-- Extract a required `int` field from the keyword dict, as pydantic does
when constructing a model via `Model(**data)`. -/
def reqInt (d : String → Option Value) (k : String) : Except HErr Int :=
  match d k with
  | none => .error (HErr.validation (k ++ ": field required"))
  | some v =>
    match asPyInt v with
    | some n => .ok n
    | none => .error (HErr.validation (k ++ ": integer type expected"))

/-- Extract a required `str` field from the keyword dict, as pydantic does
when constructing a model via `Model(**data)`. -/
def reqStr (d : String → Option Value) (k : String) : Except HErr String :=
  match d k with
  | none => .error (HErr.validation (k ++ ": field required"))
  | some v =>
    match asPyStr v with
    | some s => .ok s
    | none => .error (HErr.validation (k ++ ": string type expected"))

/-- `Repartidor(**dict(zip(column_names, row)))` (`main.py` line 102). -/
def validateRepartidor (d : String → Option Value) : Except HErr Repartidor := do
  let repartidor_id ← reqInt d "repartidor_id"
  let nombre ← reqStr d "nombre"
  let apellido ← reqStr d "apellido"
  let telefono ← reqStr d "telefono"
  return { repartidor_id, nombre, apellido, telefono }

/-- `EstadoEnvio(**dict(zip(column_names, row)))` (`main.py` line 109). -/
def validateEstadoEnvio (d : String → Option Value) : Except HErr EstadoEnvio := do
  let estado_id ← reqInt d "estado_id"
  let nombre_estado ← reqStr d "nombre_estado"
  return { estado_id, nombre_estado }

/-- `EnvioOut(**envio_data)` (`main.py` lines 124 and 138). -/
def validateEnvioOut (d : String → Option Value) : Except HErr EnvioOut := do
  let envio_id ← reqInt d "envio_id"
  let remitente ← reqStr d "remitente"
  let destinatario ← reqStr d "destinatario"
  let direccion_envio ← reqStr d "direccion_envio"
  let fecha_envio ← reqStr d "fecha_envio"
  let nombre_repartidor ← reqStr d "nombre_repartidor"
  let apellido_repartidor ← reqStr d "apellido_repartidor"
  let estado ← reqStr d "estado"
  return { envio_id, remitente, destinatario, direccion_envio, fecha_envio,
           nombre_repartidor, apellido_repartidor, estado }

/-- The `isinstance(..., datetime)` replacement: a datetime cell becomes its
`isoformat()` string, any other cell is untouched. -/
def serializeVal : Value → Value
  | .vDT d => .vStr (pyIsoformat d)
  | v => v

/-- `if isinstance(envio_data['fecha_envio'], datetime): envio_data['fecha_envio'] =
envio_data['fecha_envio'].isoformat()` — the dict after the conditional
in-place update of the `fecha_envio` key. -/
def serializeFecha (d : String → Option Value) : String → Option Value :=
  fun k => if k = "fecha_envio" then (d "fecha_envio").map serializeVal else d k

/-- Row-to-record mapping of the shipment handlers (`main.py` lines 121-124
and 135-138): build the keyword dict by zipping column names with row values,
read `envio_data['fecha_envio']` — a `KeyError` if the column is absent —
serialize it when it is a datetime, then validate as `EnvioOut`. -/
def rowToEnvioOut (cols : List Col) (row : List Value) : Except HErr EnvioOut :=
  let d := pyDictOf (cols.map Col.name) row
  match d "fecha_envio" with
  | none => .error (HErr.keyError "fecha_envio")
  | some _ => validateEnvioOut (serializeFecha d)

/-- Row-to-record mapping of `listar_repartidores` (`main.py` line 102). -/
def rowToRepartidor (cols : List Col) (row : List Value) : Except HErr Repartidor :=
  validateRepartidor (pyDictOf (cols.map Col.name) row)

/-- Row-to-record mapping of `listar_estados_envio` (`main.py` line 109). -/
def rowToEstadoEnvio (cols : List Col) (row : List Value) : Except HErr EstadoEnvio :=
  validateEstadoEnvio (pyDictOf (cols.map Col.name) row)

/-- A Python list comprehension / accumulation loop over fallible mapping:
the first raised error aborts the whole request. -/
def mapExcept {α β : Type} (f : α → Except HErr β) : List α → Except HErr (List β)
  | [] => .ok []
  | a :: rest =>
    match f a with
    | .error e => .error e
    | .ok b =>
      match mapExcept f rest with
      | .error e => .error e
      | .ok bs => .ok (b :: bs)

-- HANDLERS (main.py lines 91-176)

/-- `root` (`main.py` lines 91-93). -/
def root : String := "Bienvenido papu"

/-- `listar_repartidores` (`main.py` lines 97-102). -/
def listar_repartidores {σ : Type} (dbt : DBT σ) (cfg : Config) (st : AppState)
    (dbs : σ) : Except HErr (List Repartidor) × AppState × σ × List Event :=
  let r := ejecutar_consulta dbt cfg st dbs "CALL sp_cbox_listar_repartidor()" []
  match r.1 with
  | .error e => (.error (HErr.dbError e), r.2.1, r.2.2.1, r.2.2.2)
  | .ok (rows, desc) => (mapExcept (rowToRepartidor desc) rows, r.2.1, r.2.2.1, r.2.2.2)

/-- `listar_estados_envio` (`main.py` lines 104-109). -/
def listar_estados_envio {σ : Type} (dbt : DBT σ) (cfg : Config) (st : AppState)
    (dbs : σ) : Except HErr (List EstadoEnvio) × AppState × σ × List Event :=
  let r := ejecutar_consulta dbt cfg st dbs "CALL sp_cbox_listar_estado_envio()" []
  match r.1 with
  | .error e => (.error (HErr.dbError e), r.2.1, r.2.2.1, r.2.2.2)
  | .ok (rows, desc) => (mapExcept (rowToEstadoEnvio desc) rows, r.2.1, r.2.2.1, r.2.2.2)

/-- `listar_envios` (`main.py` lines 113-125). -/
def listar_envios {σ : Type} (dbt : DBT σ) (cfg : Config) (st : AppState)
    (dbs : σ) : Except HErr (List EnvioOut) × AppState × σ × List Event :=
  let r := ejecutar_consulta dbt cfg st dbs "CALL sp_listar_envio()" []
  match r.1 with
  | .error e => (.error (HErr.dbError e), r.2.1, r.2.2.1, r.2.2.2)
  | .ok (rows, desc) => (mapExcept (rowToEnvioOut desc) rows, r.2.1, r.2.2.1, r.2.2.2)

/-- `obtener_envio` (`main.py` lines 127-138): one stored-procedure call;
`HTTPException(404, "Envío no encontrado")` when no row comes back, otherwise
the first row is mapped to an `EnvioOut`. -/
def obtener_envio {σ : Type} (dbt : DBT σ) (cfg : Config) (st : AppState)
    (dbs : σ) (envio_id : Int) : Except HErr EnvioOut × AppState × σ × List Event :=
  let r := ejecutar_consulta dbt cfg st dbs "CALL sp_listar_envio_por_id(%s)"
             [Value.vInt envio_id]
  match r.1 with
  | .error e => (.error (HErr.dbError e), r.2.1, r.2.2.1, r.2.2.2)
  | .ok (rows, desc) =>
    match rows with
    | [] => (.error (HErr.http 404 "Envío no encontrado"), r.2.1, r.2.2.1, r.2.2.2)
    | row :: _ => (rowToEnvioOut desc row, r.2.1, r.2.2.1, r.2.2.2)

/-- The parameter tuple of `sp_crear_envio` (`main.py` lines 143-150). -/
def crearParams (e : EnvioCreate) : List Value :=
  [Value.vStr e.remitente, Value.vStr e.destinatario, Value.vStr e.direccion_envio,
   Value.vDT e.fecha_envio, Value.vInt e.repartidor_id, Value.vInt e.estado_id]

/-- `Envio(envio_id=last_id, **envio.dict())` (`main.py` lines 155 and 170):
pydantic re-validates `envio_id` (the other fields are already typed), so a
non-integer `last_id` is a validation error. -/
def mkEnvio (last_id : Value) (e : EnvioCreate) : Except HErr Envio :=
  match asPyInt last_id with
  | none => .error (HErr.validation "envio_id: integer type expected")
  | some n => .ok ⟨n, e.remitente, e.destinatario, e.direccion_envio,
                   e.fecha_envio, e.repartidor_id, e.estado_id⟩

/-- `crear_envio` (`main.py` lines 140-155): call `sp_crear_envio` with the six
body fields, then — through a second, separate `ejecutar_consulta` —
`SELECT LAST_INSERT_ID()`; `rows[0][0]` raises `IndexError` when the second
result set is empty. -/
def crear_envio {σ : Type} (dbt : DBT σ) (cfg : Config) (st : AppState)
    (dbs : σ) (envio : EnvioCreate) : Except HErr Envio × AppState × σ × List Event :=
  let r1 := ejecutar_consulta dbt cfg st dbs
              "CALL sp_crear_envio(%s, %s, %s, %s, %s, %s)" (crearParams envio)
  match r1.1 with
  | .error e => (.error (HErr.dbError e), r1.2.1, r1.2.2.1, r1.2.2.2)
  | .ok _ =>
    let r2 := ejecutar_consulta dbt cfg r1.2.1 r1.2.2.1 "SELECT LAST_INSERT_ID()" []
    match r2.1 with
    | .error e => (.error (HErr.dbError e), r2.2.1, r2.2.2.1, r1.2.2.2 ++ r2.2.2.2)
    | .ok (rows, _) =>
      match rows with
      | [] => (.error HErr.indexError, r2.2.1, r2.2.2.1, r1.2.2.2 ++ r2.2.2.2)
      | row :: _ =>
        match row with
        | [] => (.error HErr.indexError, r2.2.1, r2.2.2.1, r1.2.2.2 ++ r2.2.2.2)
        | v :: _ => (mkEnvio v envio, r2.2.1, r2.2.2.1, r1.2.2.2 ++ r2.2.2.2)

/-- The parameter tuple of `sp_actualizar_envio` (`main.py` lines 160-168):
the six body fields followed by the path id. -/
def actualizarParams (e : EnvioCreate) (envio_id : Int) : List Value :=
  crearParams e ++ [Value.vInt envio_id]

/-- `actualizar_envio` (`main.py` lines 157-170): one stored-procedure call
whose result set is discarded, then the echoed `Envio`. -/
def actualizar_envio {σ : Type} (dbt : DBT σ) (cfg : Config) (st : AppState)
    (dbs : σ) (envio_id : Int) (envio : EnvioCreate) :
    Except HErr Envio × AppState × σ × List Event :=
  let r := ejecutar_consulta dbt cfg st dbs
             "CALL sp_actualizar_envio(%s, %s, %s, %s, %s, %s, %s)"
             (actualizarParams envio envio_id)
  match r.1 with
  | .error e => (.error (HErr.dbError e), r.2.1, r.2.2.1, r.2.2.2)
  | .ok _ => (mkEnvio (Value.vInt envio_id) envio, r.2.1, r.2.2.1, r.2.2.2)

/-- `eliminar_envio` (`main.py` lines 172-176): one stored-procedure call whose
result set is discarded, then the f-string confirmation message. -/
def eliminar_envio {σ : Type} (dbt : DBT σ) (cfg : Config) (st : AppState)
    (dbs : σ) (envio_id : Int) : Except HErr String × AppState × σ × List Event :=
  let r := ejecutar_consulta dbt cfg st dbs "CALL sp_eliminar_envio(%s)"
             [Value.vInt envio_id]
  match r.1 with
  | .error e => (.error (HErr.dbError e), r.2.1, r.2.2.1, r.2.2.2)
  | .ok _ =>
    (.ok ("Envío con ID " ++ toString envio_id ++ " eliminado correctamente."),
     r.2.1, r.2.2.1, r.2.2.2)

-- SPEC-MODELLED DATABASE

/-- First-match lookup in an id-keyed table. -/
def tblGet {α : Type} (id : Int) : List (Int × α) → Option α
  | [] => none
  | (i, x) :: rest => if i = id then some x else tblGet id rest

/-- Replace the value stored under a key, leaving the table unchanged when the
key is absent (an UPDATE matching zero rows). -/
def tblSet {α : Type} (id : Int) (x : α) : List (Int × α) → List (Int × α)
  | [] => []
  | (i, y) :: rest =>
    if i = id then (i, x) :: tblSet id x rest else (i, y) :: tblSet id x rest

/-- Remove every row under a key (a DELETE). -/
def tblDel {α : Type} (id : Int) : List (Int × α) → List (Int × α)
  | [] => []
  | (i, y) :: rest => if i = id then tblDel id rest else (i, y) :: tblDel id rest

/-- The stored columns of a shipment row (spec section 3). -/
structure EnvioRow where
  remitente : String
  destinatario : String
  direccion_envio : String
  fecha_envio : PyDatetime
  repartidor_id : Int
  estado_id : Int
deriving DecidableEq, Repr

/-- Modelled from the spec: the MySQL database state behind the stored
procedures, which are database-side code absent from the repository. Shipments,
delivery people (nombre, apellido, telefono) and statuses keyed by id, plus the
session `LAST_INSERT_ID()` register and the next auto-increment id
(spec sections 3 and 4.3). -/
structure SpecDB where
  envios : List (Int × EnvioRow)
  repartidores : List (Int × (String × String × String))
  estados : List (Int × String)
  lastId : Int
  nextId : Int
deriving DecidableEq, Repr

/-- `cursor.description` of the joined shipment view (spec section 6). -/
def envioCols : List Col :=
  [⟨"envio_id", 0⟩, ⟨"remitente", 0⟩, ⟨"destinatario", 0⟩, ⟨"direccion_envio", 0⟩,
   ⟨"fecha_envio", 0⟩, ⟨"nombre_repartidor", 0⟩, ⟨"apellido_repartidor", 0⟩,
   ⟨"estado", 0⟩]

/-- The joined output row for one shipment (spec sections 3 and 8: the view
carries the delivery person's first/last name and the textual status, an inner
join resolved server-side). -/
def joinEnvio (db : SpecDB) (id : Int) (r : EnvioRow) : Option (List Value) :=
  match tblGet r.repartidor_id db.repartidores with
  | none => none
  | some (nom, ape, _) =>
    match tblGet r.estado_id db.estados with
    | none => none
    | some est =>
      some [Value.vInt id, Value.vStr r.remitente, Value.vStr r.destinatario,
            Value.vStr r.direccion_envio, Value.vDT r.fecha_envio,
            Value.vStr nom, Value.vStr ape, Value.vStr est]

/-- Modelled from the spec: the stored procedures `sp_cbox_listar_repartidor`,
`sp_cbox_listar_estado_envio`, `sp_listar_envio`, `sp_listar_envio_por_id`,
`sp_crear_envio`, `sp_actualizar_envio`, `sp_eliminar_envio` and
`SELECT LAST_INSERT_ID()` are database-side code absent from the repository;
this transition function follows the spec's endpoint table (section 4.3), the
joined output view (sections 3, 6, 8) and the invariant that foreign-key
enforcement happens inside the procedures (section 3). -/
def specDBT : DBT SpecDB := fun db q ps =>
  if q = "CALL sp_cbox_listar_repartidor()" then
    (.ok (db.repartidores.map
            (fun p => [Value.vInt p.1, Value.vStr p.2.1, Value.vStr p.2.2.1,
                       Value.vStr p.2.2.2]),
          [⟨"repartidor_id", 0⟩, ⟨"nombre", 0⟩, ⟨"apellido", 0⟩, ⟨"telefono", 0⟩]), db)
  else if q = "CALL sp_cbox_listar_estado_envio()" then
    (.ok (db.estados.map (fun p => [Value.vInt p.1, Value.vStr p.2]),
          [⟨"estado_id", 0⟩, ⟨"nombre_estado", 0⟩]), db)
  else if q = "CALL sp_listar_envio()" then
    (.ok (db.envios.filterMap (fun p => joinEnvio db p.1 p.2), envioCols), db)
  else if q = "CALL sp_listar_envio_por_id(%s)" then
    match ps with
    | [Value.vInt id] =>
      match tblGet id db.envios with
      | none => (.ok ([], envioCols), db)
      | some r =>
        match joinEnvio db id r with
        | none => (.ok ([], envioCols), db)
        | some row => (.ok ([row], envioCols), db)
    | _ => (.error "bad parameters", db)
  else if q = "CALL sp_crear_envio(%s, %s, %s, %s, %s, %s)" then
    match ps with
    | [Value.vStr re, Value.vStr de, Value.vStr di, Value.vDT f,
       Value.vInt rid, Value.vInt eid] =>
      if (tblGet rid db.repartidores).isSome && (tblGet eid db.estados).isSome then
        (.ok ([], []),
         { db with envios := db.envios ++ [(db.nextId, ⟨re, de, di, f, rid, eid⟩)],
                   lastId := db.nextId, nextId := db.nextId + 1 })
      else (.error "foreign key constraint fails", db)
    | _ => (.error "bad parameters", db)
  else if q = "CALL sp_actualizar_envio(%s, %s, %s, %s, %s, %s, %s)" then
    match ps with
    | [Value.vStr re, Value.vStr de, Value.vStr di, Value.vDT f,
       Value.vInt rid, Value.vInt eid, Value.vInt id] =>
      if (tblGet rid db.repartidores).isSome && (tblGet eid db.estados).isSome then
        (.ok ([], []), { db with envios := tblSet id ⟨re, de, di, f, rid, eid⟩ db.envios })
      else (.error "foreign key constraint fails", db)
    | _ => (.error "bad parameters", db)
  else if q = "CALL sp_eliminar_envio(%s)" then
    match ps with
    | [Value.vInt id] => (.ok ([], []), { db with envios := tblDel id db.envios })
    | _ => (.error "bad parameters", db)
  else if q = "SELECT LAST_INSERT_ID()" then
    (.ok ([[Value.vInt db.lastId]], [⟨"LAST_INSERT_ID()", 0⟩]), db)
  else (.error "unknown statement", db)

-- CONCRETE FIXTURES

def dt0 : PyDatetime := ⟨2024, 1, 1, 10, 0, 0⟩

def cfg0 : Config := ⟨some "localhost", 3306, some "user", some "secret", some "envios"⟩

def e0 : EnvioCreate := ⟨"A", "B", "X", dt0, 1, 1⟩

def st0 : AppState := ⟨none, 0⟩

def stp0 : AppState := ⟨some (create_pool cfg0), 0⟩

/-- A database whose only insert got id 7. -/
def dbtCreate : DBT Unit := fun u q _ =>
  if q = "SELECT LAST_INSERT_ID()" then
    (.ok ([[Value.vInt 7]], [⟨"LAST_INSERT_ID()", 0⟩]), u)
  else (.ok ([], []), u)

/-- A database that finds no rows for any statement. -/
def dbtNoRows : DBT Unit := fun u _ _ => (.ok ([], envioCols), u)

/-- A database holding one delivery person, one status and one shipment. -/
def dbtListings : DBT Unit := fun u q _ =>
  if q = "CALL sp_cbox_listar_repartidor()" then
    (.ok ([[Value.vInt 1, Value.vStr "Ana", Value.vStr "Gomez", Value.vStr "555"]],
          [⟨"repartidor_id", 0⟩, ⟨"nombre", 0⟩, ⟨"apellido", 0⟩, ⟨"telefono", 0⟩]), u)
  else if q = "CALL sp_cbox_listar_estado_envio()" then
    (.ok ([[Value.vInt 1, Value.vStr "Pendiente"]],
          [⟨"estado_id", 0⟩, ⟨"nombre_estado", 0⟩]), u)
  else if q = "CALL sp_listar_envio()" then
    (.ok ([[Value.vInt 1, Value.vStr "A", Value.vStr "B", Value.vStr "X",
            Value.vDT dt0, Value.vStr "Ana", Value.vStr "Gomez",
            Value.vStr "Pendiente"]], envioCols), u)
  else (.error "unknown statement", u)

/-- Spec-modelled database with no shipments but valid foreign keys. -/
def db0 : SpecDB := ⟨[], [(1, ("Ana", "Gomez", "555"))], [(1, "Pendiente")], 0, 1⟩

/-- Spec-modelled database holding shipment 1. -/
def db1 : SpecDB :=
  ⟨[(1, ⟨"R", "D", "Dir", ⟨2023, 5, 5, 0, 0, 0⟩, 1, 1⟩)],
   [(1, ("Ana", "Gomez", "555"))], [(1, "Pendiente")], 1, 2⟩

/-- An environment defining only `DB_PORT`. -/
def envMissingHost : String → Option String :=
  fun k => if k = "DB_PORT" then some "3306" else none

/-- An environment defining all five variables. -/
def envFull : String → Option String :=
  fun k =>
    if k = "DB_PORT" then some "3306"
    else if k = "DB_HOST" then some "localhost"
    else if k = "DB_USER" then some "user"
    else if k = "DB_PASSWORD" then some "secret"
    else if k = "DB_NAME" then some "envios"
    else none

/-- A result set with a single `envio_id` column: no `fecha_envio`. -/
def cols0 : List Col := [⟨"envio_id", 0⟩]

def row0 : List Value := [Value.vInt 1]

/-- A result set missing the `estado` column but carrying `fecha_envio`. -/
def cols7 : List Col :=
  [⟨"envio_id", 0⟩, ⟨"remitente", 0⟩, ⟨"destinatario", 0⟩, ⟨"direccion_envio", 0⟩,
   ⟨"fecha_envio", 0⟩, ⟨"nombre_repartidor", 0⟩, ⟨"apellido_repartidor", 0⟩]

def row7 : List Value :=
  [Value.vInt 1, Value.vStr "A", Value.vStr "B", Value.vStr "X", Value.vDT dt0,
   Value.vStr "Ana", Value.vStr "Gomez"]

/-- A complete, well-typed joined shipment row. -/
def row8 : List Value :=
  [Value.vInt 1, Value.vStr "A", Value.vStr "B", Value.vStr "X", Value.vDT dt0,
   Value.vStr "Ana", Value.vStr "Gomez", Value.vStr "Pendiente"]

/-- The field names of `EnvioOut`, in declaration order. -/
def envioOutFields : List String :=
  ["envio_id", "remitente", "destinatario", "direccion_envio", "fecha_envio",
   "nombre_repartidor", "apellido_repartidor", "estado"]

/-- Whether the keyword dict can supply field `k` of `EnvioOut` with an
acceptable value. -/
def fieldOk (d : String → Option Value) (k : String) : Bool :=
  match d k with
  | none => false
  | some v => if k = "envio_id" then (asPyInt v).isSome else (asPyStr v).isSome

-- HELPER LEMMAS

theorem get_pool_inUse (cfg : Config) (st : AppState) :
    ((get_pool cfg st).2).inUse = st.inUse := by
  cases hp : st.pool <;> simp [get_pool, hp]

theorem get_pool_pool_some (cfg : Config) (st : AppState) (p : Pool)
    (h : st.pool = some p) : get_pool cfg st = (p, st) := by
  simp [get_pool, h]

theorem ejecutar_fst {σ : Type} (dbt : DBT σ) (cfg : Config) (st : AppState)
    (dbs : σ) (q : String) (ps : List Value) :
    (ejecutar_consulta dbt cfg st dbs q ps).1 = (dbt dbs q ps).1 := rfl

theorem ejecutar_dbs {σ : Type} (dbt : DBT σ) (cfg : Config) (st : AppState)
    (dbs : σ) (q : String) (ps : List Value) :
    (ejecutar_consulta dbt cfg st dbs q ps).2.2.1 = (dbt dbs q ps).2 := rfl

theorem ejecutar_events {σ : Type} (dbt : DBT σ) (cfg : Config) (st : AppState)
    (dbs : σ) (q : String) (ps : List Value) :
    (ejecutar_consulta dbt cfg st dbs q ps).2.2.2 =
      [Event.acquire, Event.exec q ps, Event.release] := rfl

theorem ejecutar_pool_some {σ : Type} (dbt : DBT σ) (cfg : Config) (st : AppState)
    (dbs : σ) (q : String) (ps : List Value) (p : Pool) (h : st.pool = some p) :
    ((ejecutar_consulta dbt cfg st dbs q ps).2.1).pool = some p := by
  simp [ejecutar_consulta, get_pool_pool_some cfg st p h, h]

theorem except_bind_ok {ε α β : Type} {x : Except ε α} {f : α → Except ε β} {b : β}
    (h : x >>= f = Except.ok b) : ∃ a, x = Except.ok a ∧ f a = Except.ok b := by
  cases x with
  | error e => simp [Bind.bind, Except.bind] at h
  | ok a => exact ⟨a, rfl, by simpa [Bind.bind, Except.bind] using h⟩

theorem except_bind_err {ε α β : Type} {x : Except ε α} {f : α → Except ε β} {e : ε}
    (h : x >>= f = Except.error e) :
    x = Except.error e ∨ ∃ a, x = Except.ok a ∧ f a = Except.error e := by
  cases x with
  | error e2 =>
    left
    have : e2 = e := by simpa [Bind.bind, Except.bind] using h
    rw [this]
  | ok a => exact Or.inr ⟨a, rfl, by simpa [Bind.bind, Except.bind] using h⟩

theorem reqInt_ok {d : String → Option Value} {k : String} {n : Int}
    (h : reqInt d k = Except.ok n) : ∃ v, d k = some v ∧ asPyInt v = some n := by
  unfold reqInt at h
  cases hd : d k with
  | none => simp only [hd] at h; simp at h
  | some v =>
    simp only [hd] at h
    cases hv : asPyInt v with
    | none => simp only [hv] at h; simp at h
    | some m =>
      simp only [hv, Except.ok.injEq] at h
      exact ⟨v, rfl, by rw [hv, h]⟩

theorem reqStr_ok {d : String → Option Value} {k : String} {s : String}
    (h : reqStr d k = Except.ok s) : ∃ v, d k = some v ∧ asPyStr v = some s := by
  unfold reqStr at h
  cases hd : d k with
  | none => simp only [hd] at h; simp at h
  | some v =>
    simp only [hd] at h
    cases hv : asPyStr v with
    | none => simp only [hv] at h; simp at h
    | some t =>
      simp only [hv, Except.ok.injEq] at h
      exact ⟨v, rfl, by rw [hv, h]⟩

theorem reqInt_err {d : String → Option Value} {k : String} {e : HErr}
    (h : reqInt d k = Except.error e) : ∃ s, e = HErr.validation s := by
  unfold reqInt at h
  cases hd : d k with
  | none =>
    simp only [hd] at h
    exact ⟨k ++ ": field required", by simpa using h.symm⟩
  | some v =>
    simp only [hd] at h
    cases hv : asPyInt v with
    | none =>
      simp only [hv] at h
      exact ⟨k ++ ": integer type expected", by simpa using h.symm⟩
    | some m => simp only [hv] at h; simp at h

theorem reqStr_err {d : String → Option Value} {k : String} {e : HErr}
    (h : reqStr d k = Except.error e) : ∃ s, e = HErr.validation s := by
  unfold reqStr at h
  cases hd : d k with
  | none =>
    simp only [hd] at h
    exact ⟨k ++ ": field required", by simpa using h.symm⟩
  | some v =>
    simp only [hd] at h
    cases hv : asPyStr v with
    | none =>
      simp only [hv] at h
      exact ⟨k ++ ": string type expected", by simpa using h.symm⟩
    | some t => simp only [hv] at h; simp at h

theorem validateEnvioOut_ok {d : String → Option Value} {rec : EnvioOut}
    (h : validateEnvioOut d = Except.ok rec) :
    (∃ v, d "envio_id" = some v ∧ asPyInt v = some rec.envio_id)
    ∧ (∃ v, d "remitente" = some v ∧ asPyStr v = some rec.remitente)
    ∧ (∃ v, d "destinatario" = some v ∧ asPyStr v = some rec.destinatario)
    ∧ (∃ v, d "direccion_envio" = some v ∧ asPyStr v = some rec.direccion_envio)
    ∧ (∃ v, d "fecha_envio" = some v ∧ asPyStr v = some rec.fecha_envio)
    ∧ (∃ v, d "nombre_repartidor" = some v ∧ asPyStr v = some rec.nombre_repartidor)
    ∧ (∃ v, d "apellido_repartidor" = some v ∧ asPyStr v = some rec.apellido_repartidor)
    ∧ (∃ v, d "estado" = some v ∧ asPyStr v = some rec.estado) := by
  unfold validateEnvioOut at h
  obtain ⟨a1, hb1, h⟩ := except_bind_ok h
  obtain ⟨a2, hb2, h⟩ := except_bind_ok h
  obtain ⟨a3, hb3, h⟩ := except_bind_ok h
  obtain ⟨a4, hb4, h⟩ := except_bind_ok h
  obtain ⟨a5, hb5, h⟩ := except_bind_ok h
  obtain ⟨a6, hb6, h⟩ := except_bind_ok h
  obtain ⟨a7, hb7, h⟩ := except_bind_ok h
  obtain ⟨a8, hb8, h⟩ := except_bind_ok h
  have hrec : rec = ⟨a1, a2, a3, a4, a5, a6, a7, a8⟩ := by
    have := h.symm
    simpa [pure, Except.pure] using this
  subst hrec
  exact ⟨reqInt_ok hb1, reqStr_ok hb2, reqStr_ok hb3, reqStr_ok hb4, reqStr_ok hb5,
         reqStr_ok hb6, reqStr_ok hb7, reqStr_ok hb8⟩

theorem validateEnvioOut_err {d : String → Option Value} {e : HErr}
    (h : validateEnvioOut d = Except.error e) : ∃ s, e = HErr.validation s := by
  unfold validateEnvioOut at h
  rcases except_bind_err h with h1 | ⟨a1, -, h⟩
  · exact reqInt_err h1
  rcases except_bind_err h with h2 | ⟨a2, -, h⟩
  · exact reqStr_err h2
  rcases except_bind_err h with h3 | ⟨a3, -, h⟩
  · exact reqStr_err h3
  rcases except_bind_err h with h4 | ⟨a4, -, h⟩
  · exact reqStr_err h4
  rcases except_bind_err h with h5 | ⟨a5, -, h⟩
  · exact reqStr_err h5
  rcases except_bind_err h with h6 | ⟨a6, -, h⟩
  · exact reqStr_err h6
  rcases except_bind_err h with h7 | ⟨a7, -, h⟩
  · exact reqStr_err h7
  rcases except_bind_err h with h8 | ⟨a8, -, h⟩
  · exact reqStr_err h8
  simp [pure, Except.pure] at h

theorem validateEnvioOut_ok_shape {d : String → Option Value} {rec : EnvioOut}
    (h : validateEnvioOut d = Except.ok rec) :
    envioOutFields.all (fieldOk d) = true := by
  obtain ⟨⟨v1, hd1, hv1⟩, ⟨v2, hd2, hv2⟩, ⟨v3, hd3, hv3⟩, ⟨v4, hd4, hv4⟩,
          ⟨v5, hd5, hv5⟩, ⟨v6, hd6, hv6⟩, ⟨v7, hd7, hv7⟩, ⟨v8, hd8, hv8⟩⟩ :=
    validateEnvioOut_ok h
  simp [envioOutFields, fieldOk, hd1, hd2, hd3, hd4, hd5, hd6, hd7, hd8,
        hv1, hv2, hv3, hv4, hv5, hv6, hv7, hv8, Option.isSome]

theorem mapExcept_ok {α β : Type} (f : α → Except HErr β) (xs : List α) :
    ∀ l : List β, mapExcept f xs = Except.ok l →
      l.length = xs.length ∧
      ∀ (i : Nat) (ha : i < xs.length) (hb : i < l.length),
        f (xs.get ⟨i, ha⟩) = Except.ok (l.get ⟨i, hb⟩) := by
  induction xs with
  | nil =>
    intro l h
    simp only [mapExcept, Except.ok.injEq] at h
    subst h
    exact ⟨rfl, fun i ha _ => absurd ha (Nat.not_lt_zero i)⟩
  | cons a rest ih =>
    intro l h
    simp only [mapExcept] at h
    cases hfa : f a with
    | error e => rw [hfa] at h; simp at h
    | ok b =>
      rw [hfa] at h
      cases hrest : mapExcept f rest with
      | error e => rw [hrest] at h; simp at h
      | ok bs =>
        rw [hrest] at h
        simp only [Except.ok.injEq] at h
        subst h
        obtain ⟨hlen, hpt⟩ := ih bs hrest
        refine ⟨by simp [hlen], ?_⟩
        intro i ha hb
        cases i with
        | zero => simpa [List.get] using hfa
        | succ j =>
          simpa [List.get] using
            hpt j (Nat.lt_of_succ_lt_succ ha) (Nat.lt_of_succ_lt_succ hb)

theorem tblGet_tblSet {α : Type} (id : Int) (x : α) (l : List (Int × α)) (y : α)
    (h : tblGet id l = some y) : tblGet id (tblSet id x l) = some x := by
  induction l with
  | nil => simp [tblGet] at h
  | cons p rest ih =>
    obtain ⟨i, z⟩ := p
    by_cases hi : i = id
    · simp [tblSet, tblGet, hi]
    · simp only [tblSet, tblGet, if_neg hi] at h ⊢
      exact ih h

-- THEOREMS FOR THE CLAIMS

/-- C4: `ejecutar_consulta` acquires exactly one connection from the pool and
releases it back on every exit path — the event trace is acquire, execute,
release, and the in-use count returns to its pre-call value, whether the
database call succeeds or raises — and it passes the database's answer
through unchanged, so on success the caller receives all fetched rows together
with the cursor's column descriptors. -/
theorem c4_executor_scoped_connection {σ : Type} (dbt : DBT σ) (cfg : Config)
    (st : AppState) (dbs : σ) (q : String) (ps : List Value) :
    (ejecutar_consulta dbt cfg st dbs q ps).1 = (dbt dbs q ps).1
    ∧ (ejecutar_consulta dbt cfg st dbs q ps).2.2.2 =
        [Event.acquire, Event.exec q ps, Event.release]
    ∧ ((ejecutar_consulta dbt cfg st dbs q ps).2.1).inUse = st.inUse
    ∧ (ejecutar_consulta dbt cfg st dbs q ps).2.2.1 = (dbt dbs q ps).2 := by
  refine ⟨rfl, rfl, ?_, rfl⟩
  simp [ejecutar_consulta, get_pool_inUse]

/-- C3: `get_pool` creates the pool on first call — with the configured host,
port, credentials and database name and with auto-commit enabled — stores it in
the process-wide variable, and every later call (the startup hook included)
returns that same instance with the state untouched; running a query through
`ejecutar_consulta` never replaces a non-`None` pool. -/
theorem c3_pool_singleton {σ : Type} (cfg : Config) (stNew stHas : AppState)
    (p : Pool) (dbt : DBT σ) (dbs : σ) (q : String) (ps : List Value)
    (h0 : stNew.pool = none) (h1 : stHas.pool = some p) :
    get_pool cfg stNew = (create_pool cfg, { stNew with pool := some (create_pool cfg) })
    ∧ (create_pool cfg).host = cfg.host ∧ (create_pool cfg).port = cfg.port
    ∧ (create_pool cfg).user = cfg.user ∧ (create_pool cfg).password = cfg.password
    ∧ (create_pool cfg).db = cfg.db ∧ (create_pool cfg).autocommit = true
    ∧ get_pool cfg stHas = (p, stHas)
    ∧ startup cfg stHas = stHas
    ∧ ((ejecutar_consulta dbt cfg stHas dbs q ps).2.1).pool = some p := by
  refine ⟨by simp [get_pool, h0], rfl, rfl, rfl, rfl, rfl, rfl,
          get_pool_pool_some cfg stHas p h1, ?_, ejecutar_pool_some dbt cfg stHas dbs q ps p h1⟩
  simp [startup, get_pool_pool_some cfg stHas p h1]

/-- Closed instantiation of the C3 theorem. -/
theorem c3_pool_singleton_w :
    get_pool cfg0 st0 = (create_pool cfg0, { st0 with pool := some (create_pool cfg0) })
    ∧ get_pool cfg0 stp0 = (create_pool cfg0, stp0)
    ∧ ((ejecutar_consulta dbtNoRows cfg0 stp0 () "SELECT 1" []).2.1).pool =
        some (create_pool cfg0) := by
  have h := c3_pool_singleton (σ := Unit) cfg0 st0 stp0 (create_pool cfg0)
              dbtNoRows () "SELECT 1" [] rfl rfl
  exact ⟨h.1, h.2.2.2.2.2.2.2.1, h.2.2.2.2.2.2.2.2.2⟩

/-- C1: for every valid shipment body, `crear_envio` invokes `sp_crear_envio`
with the six body fields and then runs `SELECT LAST_INSERT_ID()`, each through
its own pool-acquired connection (two separate acquire/release pairs in the
trace); when the database reports an insert id `n > 0`, the response is an
`Envio` whose `envio_id` is that positive integer and whose remaining fields
echo the input exactly. -/
theorem c1_crear_envio {σ : Type} (dbt : DBT σ) (cfg : Config) (st : AppState)
    (dbs dbs1 dbs2 : σ) (e : EnvioCreate) (r1 : List (List Value) × List Col)
    (d2 : List Col) (n : Int)
    (h1 : dbt dbs "CALL sp_crear_envio(%s, %s, %s, %s, %s, %s)" (crearParams e) =
            (.ok r1, dbs1))
    (h2 : dbt dbs1 "SELECT LAST_INSERT_ID()" [] = (.ok ([[Value.vInt n]], d2), dbs2))
    (h3 : 0 < n) :
    (crear_envio dbt cfg st dbs e).1 =
      .ok ⟨n, e.remitente, e.destinatario, e.direccion_envio, e.fecha_envio,
           e.repartidor_id, e.estado_id⟩
    ∧ (∀ rec : Envio, (crear_envio dbt cfg st dbs e).1 = .ok rec → 0 < rec.envio_id)
    ∧ (crear_envio dbt cfg st dbs e).2.2.2 =
        [Event.acquire,
         Event.exec "CALL sp_crear_envio(%s, %s, %s, %s, %s, %s)" (crearParams e),
         Event.release, Event.acquire, Event.exec "SELECT LAST_INSERT_ID()" [],
         Event.release] := by
  have hfst : (crear_envio dbt cfg st dbs e).1 =
      .ok ⟨n, e.remitente, e.destinatario, e.direccion_envio, e.fecha_envio,
           e.repartidor_id, e.estado_id⟩ := by
    simp [crear_envio, ejecutar_consulta, h1, h2, mkEnvio, asPyInt]
  refine ⟨hfst, ?_, ?_⟩
  · intro rec hrec
    rw [hfst] at hrec
    injection hrec with hrec
    rw [← hrec]
    exact h3
  · simp [crear_envio, ejecutar_consulta, h1, h2]

/-- Closed instantiation of the C1 theorem. -/
theorem c1_crear_envio_w :
    (crear_envio dbtCreate cfg0 stp0 () e0).1 =
      .ok ⟨7, "A", "B", "X", dt0, 1, 1⟩ :=
  (c1_crear_envio dbtCreate cfg0 stp0 () () () e0 ([], [])
      [⟨"LAST_INSERT_ID()", 0⟩] 7 rfl rfl (by decide)).1

/-- C2: when `sp_listar_envio_por_id` returns no rows for a shipment id,
`obtener_envio` fails with HTTP 404 and the nonempty human-readable detail
`"Envío no encontrado"`, and does not return any shipment record. -/
theorem c2_obtener_envio_not_found {σ : Type} (dbt : DBT σ) (cfg : Config)
    (st : AppState) (dbs dbs1 : σ) (id : Int) (desc : List Col)
    (h : dbt dbs "CALL sp_listar_envio_por_id(%s)" [Value.vInt id] =
           (.ok ([], desc), dbs1)) :
    (obtener_envio dbt cfg st dbs id).1 = .error (HErr.http 404 "Envío no encontrado")
    ∧ exceptIsOk (obtener_envio dbt cfg st dbs id).1 = false
    ∧ "Envío no encontrado" ≠ "" := by
  have hfst : (obtener_envio dbt cfg st dbs id).1 =
      .error (HErr.http 404 "Envío no encontrado") := by
    simp [obtener_envio, ejecutar_consulta, h]
  refine ⟨hfst, by rw [hfst]; rfl, by decide⟩

/-- Closed instantiation of the C2 theorem. -/
theorem c2_obtener_envio_not_found_w :
    (obtener_envio dbtNoRows cfg0 stp0 () 42).1 =
      .error (HErr.http 404 "Envío no encontrado") :=
  (c2_obtener_envio_not_found dbtNoRows cfg0 stp0 () () 42 envioCols rfl).1

/-- C10: for every shipment id (present in the database or not),
`actualizar_envio` answers with the echoed id and body and `eliminar_envio`
answers with the confirmation message naming the id; both conclusions hold for
arbitrary result sets of the stored procedures, so neither handler inspects
that result and neither ever raises a 404. -/
theorem c10_put_delete_ignore_result {σ : Type} (dbt : DBT σ) (cfg : Config)
    (st : AppState) (dbs dbs1 dbs2 : σ) (id : Int) (e : EnvioCreate)
    (rows rows2 : List (List Value)) (desc desc2 : List Col)
    (h1 : dbt dbs "CALL sp_actualizar_envio(%s, %s, %s, %s, %s, %s, %s)"
            (actualizarParams e id) = (.ok (rows, desc), dbs1))
    (h2 : dbt dbs "CALL sp_eliminar_envio(%s)" [Value.vInt id] =
            (.ok (rows2, desc2), dbs2)) :
    (actualizar_envio dbt cfg st dbs id e).1 =
      .ok ⟨id, e.remitente, e.destinatario, e.direccion_envio, e.fecha_envio,
           e.repartidor_id, e.estado_id⟩
    ∧ (eliminar_envio dbt cfg st dbs id).1 =
        .ok ("Envío con ID " ++ toString id ++ " eliminado correctamente.")
    ∧ exceptIsOk (actualizar_envio dbt cfg st dbs id e).1 = true
    ∧ exceptIsOk (eliminar_envio dbt cfg st dbs id).1 = true := by
  have ha : (actualizar_envio dbt cfg st dbs id e).1 =
      .ok ⟨id, e.remitente, e.destinatario, e.direccion_envio, e.fecha_envio,
           e.repartidor_id, e.estado_id⟩ := by
    simp [actualizar_envio, ejecutar_consulta, h1, mkEnvio, asPyInt]
  have hd : (eliminar_envio dbt cfg st dbs id).1 =
      .ok ("Envío con ID " ++ toString id ++ " eliminado correctamente.") := by
    simp [eliminar_envio, ejecutar_consulta, h2]
  exact ⟨ha, hd, by rw [ha]; rfl, by rw [hd]; rfl⟩

/-- Closed instantiation of the C10 theorem. -/
theorem c10_put_delete_ignore_result_w :
    (actualizar_envio dbtNoRows cfg0 stp0 () 42 e0).1 =
      .ok ⟨42, "A", "B", "X", dt0, 1, 1⟩
    ∧ (eliminar_envio dbtNoRows cfg0 stp0 () 42).1 =
        .ok "Envío con ID 42 eliminado correctamente." := by
  have h := c10_put_delete_ignore_result dbtNoRows cfg0 stp0 () () () 42 e0
              [] [] envioCols envioCols rfl rfl
  exact ⟨h.1, h.2.1⟩

theorem serializeFecha_other (d : String → Option Value) (k : String)
    (hk : ¬(k = "fecha_envio")) : serializeFecha d k = d k := by
  simp [serializeFecha, hk]

/-- C5: whenever the shipment row-to-record mapping produces a record, every
field of that record was obtained by zipping the column names from the query
metadata with the row values positionally (looking each field name up in the
resulting keyword dict), and the `fecha_envio` field, when the row carried a
timestamp there, was serialized to its ISO-8601 `isoformat` string before being
placed in the outbound record. -/
theorem c5_row_to_record (cols : List Col) (row : List Value) (rec : EnvioOut)
    (h : rowToEnvioOut cols row = Except.ok rec) :
    (∃ v, pyDictOf (cols.map Col.name) row "envio_id" = some v ∧
       asPyInt v = some rec.envio_id)
    ∧ (∃ v, pyDictOf (cols.map Col.name) row "remitente" = some v ∧
       asPyStr v = some rec.remitente)
    ∧ (∃ v, pyDictOf (cols.map Col.name) row "destinatario" = some v ∧
       asPyStr v = some rec.destinatario)
    ∧ (∃ v, pyDictOf (cols.map Col.name) row "direccion_envio" = some v ∧
       asPyStr v = some rec.direccion_envio)
    ∧ (∃ v, pyDictOf (cols.map Col.name) row "fecha_envio" = some v ∧
       asPyStr (serializeVal v) = some rec.fecha_envio)
    ∧ (∃ v, pyDictOf (cols.map Col.name) row "nombre_repartidor" = some v ∧
       asPyStr v = some rec.nombre_repartidor)
    ∧ (∃ v, pyDictOf (cols.map Col.name) row "apellido_repartidor" = some v ∧
       asPyStr v = some rec.apellido_repartidor)
    ∧ (∃ v, pyDictOf (cols.map Col.name) row "estado" = some v ∧
       asPyStr v = some rec.estado)
    ∧ (∀ dt, pyDictOf (cols.map Col.name) row "fecha_envio" = some (Value.vDT dt) →
       rec.fecha_envio = pyIsoformat dt) := by
  simp only [rowToEnvioOut] at h
  cases hd : pyDictOf (cols.map Col.name) row "fecha_envio" with
  | none => simp [hd] at h
  | some fv =>
    simp only [hd] at h
    obtain ⟨⟨v1, hd1, hv1⟩, ⟨v2, hd2, hv2⟩, ⟨v3, hd3, hv3⟩, ⟨v4, hd4, hv4⟩,
            ⟨v5, hd5, hv5⟩, ⟨v6, hd6, hv6⟩, ⟨v7, hd7, hv7⟩, ⟨v8, hd8, hv8⟩⟩ :=
      validateEnvioOut_ok h
    rw [serializeFecha_other _ _ (by decide)] at hd1 hd2 hd3 hd4 hd6 hd7 hd8
    have hsf : serializeFecha (pyDictOf (cols.map Col.name) row) "fecha_envio" =
        some (serializeVal fv) := by simp [serializeFecha, hd]
    rw [hsf] at hd5
    injection hd5 with hd5
    refine ⟨⟨v1, hd1, hv1⟩, ⟨v2, hd2, hv2⟩, ⟨v3, hd3, hv3⟩, ⟨v4, hd4, hv4⟩,
            ⟨fv, rfl, by rw [hd5]; exact hv5⟩, ⟨v6, hd6, hv6⟩, ⟨v7, hd7, hv7⟩,
            ⟨v8, hd8, hv8⟩, ?_⟩
    intro dt hdt
    injection hdt with hdt
    subst hdt
    simp only [serializeVal] at hd5
    rw [← hd5] at hv5
    simp only [asPyStr, Option.some.injEq] at hv5
    exact hv5.symm

/-- Closed instantiation of the C5 theorem. -/
theorem c5_row_to_record_w :
    rowToEnvioOut envioCols row8 =
      Except.ok ⟨1, "A", "B", "X", "2024-01-01T10:00:00", "Ana", "Gomez", "Pendiente"⟩
    ∧ ("2024-01-01T10:00:00" : String) = pyIsoformat dt0 := by
  have hrec : rowToEnvioOut envioCols row8 =
      Except.ok ⟨1, "A", "B", "X", "2024-01-01T10:00:00", "Ana", "Gomez", "Pendiente"⟩ := rfl
  obtain ⟨-, -, -, -, -, -, -, -, h9⟩ :=
    c5_row_to_record envioCols row8
      ⟨1, "A", "B", "X", "2024-01-01T10:00:00", "Ana", "Gomez", "Pendiente"⟩ hrec
  exact ⟨hrec, (h9 dt0 rfl).symm⟩

/-- C6 counterexample: on a result set without a `fecha_envio` column (here a
single `envio_id` column), the mapping fails with a `KeyError` — the line
`envio_data['fecha_envio']` — which is not a type/validation error, contrary to
the claim that any such mismatch surfaces as a type/validation error. -/
theorem c6_counterexample :
    rowToEnvioOut cols0 row0 = Except.error (HErr.keyError "fecha_envio")
    ∧ isValidationErr (rowToEnvioOut cols0 row0) = false := ⟨rfl, rfl⟩

/-- C6 amended: for every stored-procedure result whose column names do not
match the expected record shape (a required field of the response model is
absent or has the wrong type), the row-to-record mapping fails at mapping time
rather than producing a record — with a type/validation error, except when the
`fecha_envio` column itself is absent, in which case it fails with a key-lookup
error (`KeyError`) instead. -/
theorem c6_mismatch_fails (cols : List Col) (row : List Value)
    (h : envioOutFields.all
           (fieldOk (serializeFecha (pyDictOf (cols.map Col.name) row))) = false) :
    exceptIsOk (rowToEnvioOut cols row) = false
    ∧ (pyDictOf (cols.map Col.name) row "fecha_envio" = none →
        rowToEnvioOut cols row = Except.error (HErr.keyError "fecha_envio"))
    ∧ (∀ fv, pyDictOf (cols.map Col.name) row "fecha_envio" = some fv →
        isValidationErr (rowToEnvioOut cols row) = true) := by
  have hnotok : ∀ rec : EnvioOut, ¬(rowToEnvioOut cols row = Except.ok rec) := by
    intro rec hrec
    simp only [rowToEnvioOut] at hrec
    cases hd : pyDictOf (cols.map Col.name) row "fecha_envio" with
    | none => simp [hd] at hrec
    | some fv =>
      simp only [hd] at hrec
      exact absurd (validateEnvioOut_ok_shape hrec) (by rw [h]; simp)
  refine ⟨?_, ?_, ?_⟩
  · cases hre : rowToEnvioOut cols row with
    | error e => rfl
    | ok rec => exact absurd hre (hnotok rec)
  · intro hd
    simp [rowToEnvioOut, hd]
  · intro fv hd
    have hre : rowToEnvioOut cols row =
        validateEnvioOut (serializeFecha (pyDictOf (cols.map Col.name) row)) := by
      simp [rowToEnvioOut, hd]
    rw [hre]
    cases hve : validateEnvioOut (serializeFecha (pyDictOf (cols.map Col.name) row)) with
    | ok rec => exact absurd (hre.trans hve) (hnotok rec)
    | error e =>
      obtain ⟨s, hs⟩ := validateEnvioOut_err hve
      rw [hs]
      rfl

/-- Closed instantiation of the amended C6 theorem: a result set missing the
`estado` column (but carrying `fecha_envio`) fails with a validation error and
produces no record. -/
theorem c6_mismatch_fails_w :
    envioOutFields.all
      (fieldOk (serializeFecha (pyDictOf (cols7.map Col.name) row7))) = false
    ∧ exceptIsOk (rowToEnvioOut cols7 row7) = false
    ∧ isValidationErr (rowToEnvioOut cols7 row7) = true := by
  have h0 : envioOutFields.all
      (fieldOk (serializeFecha (pyDictOf (cols7.map Col.name) row7))) = false := rfl
  have h := c6_mismatch_fails cols7 row7 h0
  exact ⟨h0, h.1, h.2.2 (Value.vDT dt0) rfl⟩

/-- C7 counterexample: with `DB_PORT` set but `DB_HOST` absent from the
environment, module-level configuration loading succeeds (the host is simply
`None`), contrary to the claim that a missing value for any of the five
variables fails process startup. -/
theorem c7_counterexample :
    envMissingHost "DB_HOST" = none
    ∧ loadConfig envMissingHost = Except.ok ⟨none, 3306, none, none, none⟩
    ∧ exceptIsOk (loadConfig envMissingHost) = true := ⟨rfl, rfl, rfl⟩

/-- C7 amended: the five configuration values are read from the environment
once at module load; a missing `DB_PORT` fails startup with a `TypeError`
(`int(None)`) and a non-integer `DB_PORT` fails it with a `ValueError`, while
the other four values are passed through as-is — absent values load as `None`
without failing. -/
theorem c7_config_loading (env : String → Option String) :
    (env "DB_PORT" = none → loadConfig env = Except.error HErr.typeError)
    ∧ (∀ s, env "DB_PORT" = some s → pyInt s = none →
        loadConfig env = Except.error HErr.valueError)
    ∧ (∀ s n, env "DB_PORT" = some s → pyInt s = some n →
        loadConfig env =
          Except.ok ⟨env "DB_HOST", n, env "DB_USER", env "DB_PASSWORD", env "DB_NAME"⟩) := by
  refine ⟨fun h => by simp [loadConfig, h], fun s h1 h2 => by simp [loadConfig, h1, h2],
          fun s n h1 h2 => by simp [loadConfig, h1, h2]⟩

/-- Closed instantiation of the amended C7 theorem. -/
theorem c7_config_loading_w :
    loadConfig envFull =
      Except.ok ⟨some "localhost", 3306, some "user", some "secret", some "envios"⟩ := by
  have h := (c7_config_loading envFull).2.2 "3306" 3306 rfl rfl
  exact h

/-- C9: whenever a listing endpoint (`listar_repartidores`,
`listar_estados_envio`, `listar_envios`) answers successfully, the returned
array has exactly as many records as the database returned rows, and the
record at every index is the mapping of the row at that same index — no row
added, dropped or reordered by this layer. -/
theorem c9_listing_counts {σ : Type} (dbt : DBT σ) (cfg : Config) (st : AppState)
    (dbs : σ) (rows1 rows2 rows3 : List (List Value)) (d1 d2 d3 : List Col)
    (s1 s2 s3 : σ) (l1 : List Repartidor) (l2 : List EstadoEnvio) (l3 : List EnvioOut)
    (h1 : dbt dbs "CALL sp_cbox_listar_repartidor()" [] = (.ok (rows1, d1), s1))
    (h2 : dbt dbs "CALL sp_cbox_listar_estado_envio()" [] = (.ok (rows2, d2), s2))
    (h3 : dbt dbs "CALL sp_listar_envio()" [] = (.ok (rows3, d3), s3))
    (hl1 : (listar_repartidores dbt cfg st dbs).1 = .ok l1)
    (hl2 : (listar_estados_envio dbt cfg st dbs).1 = .ok l2)
    (hl3 : (listar_envios dbt cfg st dbs).1 = .ok l3) :
    l1.length = rows1.length ∧ l2.length = rows2.length ∧ l3.length = rows3.length
    ∧ (∀ (i : Nat) (ha : i < rows1.length) (hb : i < l1.length),
        rowToRepartidor d1 (rows1.get ⟨i, ha⟩) = Except.ok (l1.get ⟨i, hb⟩))
    ∧ (∀ (i : Nat) (ha : i < rows2.length) (hb : i < l2.length),
        rowToEstadoEnvio d2 (rows2.get ⟨i, ha⟩) = Except.ok (l2.get ⟨i, hb⟩))
    ∧ (∀ (i : Nat) (ha : i < rows3.length) (hb : i < l3.length),
        rowToEnvioOut d3 (rows3.get ⟨i, ha⟩) = Except.ok (l3.get ⟨i, hb⟩)) := by
  have e1 : (listar_repartidores dbt cfg st dbs).1 = mapExcept (rowToRepartidor d1) rows1 := by
    simp [listar_repartidores, ejecutar_consulta, h1]
  have e2 : (listar_estados_envio dbt cfg st dbs).1 = mapExcept (rowToEstadoEnvio d2) rows2 := by
    simp [listar_estados_envio, ejecutar_consulta, h2]
  have e3 : (listar_envios dbt cfg st dbs).1 = mapExcept (rowToEnvioOut d3) rows3 := by
    simp [listar_envios, ejecutar_consulta, h3]
  rw [e1] at hl1
  rw [e2] at hl2
  rw [e3] at hl3
  obtain ⟨len1, pt1⟩ := mapExcept_ok (rowToRepartidor d1) rows1 l1 hl1
  obtain ⟨len2, pt2⟩ := mapExcept_ok (rowToEstadoEnvio d2) rows2 l2 hl2
  obtain ⟨len3, pt3⟩ := mapExcept_ok (rowToEnvioOut d3) rows3 l3 hl3
  exact ⟨len1, len2, len3, pt1, pt2, pt3⟩

/-- Closed instantiation of the C9 theorem. -/
theorem c9_listing_counts_w :
    ([(⟨1, "Ana", "Gomez", "555"⟩ : Repartidor)]).length =
      [[Value.vInt 1, Value.vStr "Ana", Value.vStr "Gomez", Value.vStr "555"]].length
    ∧ ([(⟨1, "Pendiente"⟩ : EstadoEnvio)]).length =
        [[Value.vInt 1, Value.vStr "Pendiente"]].length
    ∧ ([(⟨1, "A", "B", "X", "2024-01-01T10:00:00", "Ana", "Gomez", "Pendiente"⟩ :
          EnvioOut)]).length =
        [[Value.vInt 1, Value.vStr "A", Value.vStr "B", Value.vStr "X", Value.vDT dt0,
          Value.vStr "Ana", Value.vStr "Gomez", Value.vStr "Pendiente"]].length := by
  have h := c9_listing_counts dbtListings cfg0 stp0 ()
      [[Value.vInt 1, Value.vStr "Ana", Value.vStr "Gomez", Value.vStr "555"]]
      [[Value.vInt 1, Value.vStr "Pendiente"]]
      [[Value.vInt 1, Value.vStr "A", Value.vStr "B", Value.vStr "X", Value.vDT dt0,
        Value.vStr "Ana", Value.vStr "Gomez", Value.vStr "Pendiente"]]
      [⟨"repartidor_id", 0⟩, ⟨"nombre", 0⟩, ⟨"apellido", 0⟩, ⟨"telefono", 0⟩]
      [⟨"estado_id", 0⟩, ⟨"nombre_estado", 0⟩] envioCols () () ()
      [⟨1, "Ana", "Gomez", "555"⟩] [⟨1, "Pendiente"⟩]
      [⟨1, "A", "B", "X", "2024-01-01T10:00:00", "Ana", "Gomez", "Pendiente"⟩]
      rfl rfl rfl rfl rfl rfl
  exact ⟨h.1, h.2.1, h.2.2.1⟩

theorem rowToEnvioOut_join (id : Int) (re de di : String) (f : PyDatetime)
    (nom ape est : String) :
    rowToEnvioOut envioCols
      [Value.vInt id, Value.vStr re, Value.vStr de, Value.vStr di, Value.vDT f,
       Value.vStr nom, Value.vStr ape, Value.vStr est] =
      Except.ok ⟨id, re, de, di, pyIsoformat f, nom, ape, est⟩ := rfl

/-- C8 counterexample: on a database with no shipment row for id 1 (and valid
foreign keys), PUT succeeds with the echoed body, but the GET that follows —
run on the database state the PUT produced — yields 404 rather than a record
reflecting the update; so the claim fails for shipment ids with no matching
row. -/
theorem c8_counterexample :
    (actualizar_envio specDBT cfg0 stp0 db0 1 e0).1 =
      Except.ok ⟨1, "A", "B", "X", dt0, 1, 1⟩
    ∧ (obtener_envio specDBT cfg0 (actualizar_envio specDBT cfg0 stp0 db0 1 e0).2.1
         ((actualizar_envio specDBT cfg0 stp0 db0 1 e0).2.2.1) 1).1 =
        Except.error (HErr.http 404 "Envío no encontrado") := ⟨rfl, rfl⟩

/-- C8 amended: for every shipment id that has a matching row and every valid
input body whose delivery-person and status references exist, PUT — which calls
`sp_actualizar_envio` with the six body fields followed by the id and answers
with the id plus the echoed input — followed by GET on the same id yields a
record whose input fields reflect the updated values exactly, with the
timestamp rendered as its ISO-8601 string. -/
theorem c8_put_then_get (cfg : Config) (st : AppState) (db : SpecDB) (id : Int)
    (e : EnvioCreate) (r : EnvioRow) (nom ape tel est : String)
    (h1 : tblGet id db.envios = some r)
    (h2 : tblGet e.repartidor_id db.repartidores = some (nom, ape, tel))
    (h3 : tblGet e.estado_id db.estados = some est) :
    (actualizar_envio specDBT cfg st db id e).1 =
      Except.ok ⟨id, e.remitente, e.destinatario, e.direccion_envio, e.fecha_envio,
                 e.repartidor_id, e.estado_id⟩
    ∧ (obtener_envio specDBT cfg (actualizar_envio specDBT cfg st db id e).2.1
         ((actualizar_envio specDBT cfg st db id e).2.2.1) id).1 =
        Except.ok ⟨id, e.remitente, e.destinatario, e.direccion_envio,
                   pyIsoformat e.fecha_envio, nom, ape, est⟩ := by
  have hfk1 : (tblGet e.repartidor_id db.repartidores).isSome = true := by
    rw [h2]; rfl
  have hfk2 : (tblGet e.estado_id db.estados).isSome = true := by
    rw [h3]; rfl
  have hupd : specDBT db "CALL sp_actualizar_envio(%s, %s, %s, %s, %s, %s, %s)"
        (actualizarParams e id) =
      (Except.ok ([], []),
       { db with envios := tblSet id ⟨e.remitente, e.destinatario, e.direccion_envio,
                                      e.fecha_envio, e.repartidor_id, e.estado_id⟩
                             db.envios }) := by
    simp [specDBT, actualizarParams, crearParams, hfk1, hfk2]
  have hput : (actualizar_envio specDBT cfg st db id e).1 =
      Except.ok ⟨id, e.remitente, e.destinatario, e.direccion_envio, e.fecha_envio,
                 e.repartidor_id, e.estado_id⟩ := by
    simp [actualizar_envio, ejecutar_consulta, hupd, mkEnvio, asPyInt]
  have hdb1 : (actualizar_envio specDBT cfg st db id e).2.2.1 =
      { db with envios := tblSet id ⟨e.remitente, e.destinatario, e.direccion_envio,
                                     e.fecha_envio, e.repartidor_id, e.estado_id⟩
                            db.envios } := by
    simp [actualizar_envio, ejecutar_consulta, hupd]
  have hg : tblGet id (tblSet id
      (⟨e.remitente, e.destinatario, e.direccion_envio, e.fecha_envio,
        e.repartidor_id, e.estado_id⟩ : EnvioRow) db.envios) =
      some ⟨e.remitente, e.destinatario, e.direccion_envio, e.fecha_envio,
            e.repartidor_id, e.estado_id⟩ :=
    tblGet_tblSet id _ db.envios r h1
  have hget : specDBT ({ db with envios := tblSet id ⟨e.remitente, e.destinatario,
                                             e.direccion_envio, e.fecha_envio,
                                             e.repartidor_id, e.estado_id⟩ db.envios })
        "CALL sp_listar_envio_por_id(%s)" [Value.vInt id] =
      (Except.ok ([[Value.vInt id, Value.vStr e.remitente, Value.vStr e.destinatario,
                    Value.vStr e.direccion_envio, Value.vDT e.fecha_envio,
                    Value.vStr nom, Value.vStr ape, Value.vStr est]], envioCols),
       { db with envios := tblSet id ⟨e.remitente, e.destinatario, e.direccion_envio,
                                      e.fecha_envio, e.repartidor_id,
                                      e.estado_id⟩ db.envios }) := by
    simp [specDBT, joinEnvio, hg, h2, h3]
  refine ⟨hput, ?_⟩
  rw [hdb1]
  simp [obtener_envio, ejecutar_consulta, hget, rowToEnvioOut_join]

/-- Closed instantiation of the amended C8 theorem. -/
theorem c8_put_then_get_w :
    (actualizar_envio specDBT cfg0 stp0 db1 1 e0).1 =
      Except.ok ⟨1, "A", "B", "X", dt0, 1, 1⟩
    ∧ (obtener_envio specDBT cfg0 (actualizar_envio specDBT cfg0 stp0 db1 1 e0).2.1
         ((actualizar_envio specDBT cfg0 stp0 db1 1 e0).2.2.1) 1).1 =
        Except.ok ⟨1, "A", "B", "X", pyIsoformat dt0, "Ana", "Gomez", "Pendiente"⟩ :=
  c8_put_then_get cfg0 stp0 db1 1 e0 ⟨"R", "D", "Dir", ⟨2023, 5, 5, 0, 0, 0⟩, 1, 1⟩
    "Ana" "Gomez" "555" "Pendiente" rfl rfl rfl

end EnviosApi
